import Mathlib

/-!
Verification of the subscriber registry and broadcast protocol of the
node-red-contrib-server-sent-events package.  The repository holds two
near-duplicate implementations of the same node:

* `src/sse-server/sse-server.js` (embedded here with the suffix `_sse`), and
* `src/unnamed/part_000` (embedded here with the suffix `_p0`).

Both are modelled as pure state transformers over a `Node` value.  Side
effects on the transport (header writes, frame writes, stream ends),
on the host runtime (`node.send`, `node.status`, logging, listener
registration) and completion callbacks are recorded in an explicit
`Effect` log.  Whether a write or an end on a given stream throws is
captured by an `Env` of failure predicates keyed by the subscriber id
that owns the stream, matching the per-subscriber try/catch granularity
of the source.
-/

set_option autoImplicit false

namespace SSE

/-- The universe of JavaScript values the node manipulates: payloads,
topics and the node-level `event` and `data` configuration. -/
inductive JSValue where
  | vUndefined
  | vNull
  | vBool (b : Bool)
  | vNum (n : Int)
  | vStr (s : String)
  deriving DecidableEq, Repr

/-- JavaScript truthiness, used by the source in `a || b` chains and in
`msg.payload || ...` defaults. -/
def truthy : JSValue → Bool
  | .vUndefined => false
  | .vNull => false
  | .vBool b => b
  | .vNum n => decide (n ≠ 0)
  | .vStr s => decide (s ≠ "")

/-- The JavaScript `a || b` operator. -/
def jsOr (a b : JSValue) : JSValue :=
  if truthy a then a else b

/-- The test performed by the source: whether typeof data is the
string type. -/
def isString : JSValue → Bool
  | .vStr _ => true
  | _ => false

/-- String coercion as performed by a template literal. -/
def jsToString : JSValue → String
  | .vUndefined => "undefined"
  | .vNull => "null"
  | .vBool true => "true"
  | .vBool false => "false"
  | .vNum n => toString n
  | .vStr s => s

/-- JSON escaping of a single character inside a string literal. -/
def jsonEscapeChar (c : Char) : String :=
  if c = '"' then "\\\""
  else if c = '\\' then "\\\\"
  else if c = '\n' then "\\n"
  else String.singleton c

/-- JSON escaping of a string body. -/
def jsonEscape (s : String) : String :=
  String.join (s.toList.map jsonEscapeChar)

/-- The textual JSON encoding of a defined value. -/
def jsonEncode : JSValue → String
  | .vUndefined => "undefined"
  | .vNull => "null"
  | .vBool true => "true"
  | .vBool false => "false"
  | .vNum n => toString n
  | .vStr s => "\"" ++ jsonEscape s ++ "\""

/-- `JSON.stringify` as a value-level function: `undefined` maps to
`undefined`, every other scalar maps to its JSON text. -/
def jsJSONStringify : JSValue → JSValue
  | .vUndefined => .vUndefined
  | v => .vStr (jsonEncode v)

/-- Source `_serializeData`: pass a string through unchanged, otherwise
`JSON.stringify` it. -/
def _serializeData (data : JSValue) : JSValue :=
  if isString data then data else jsJSONStringify data

/-- One SSE wire frame: the `event:`, `data:` and `id:` lines. -/
structure Frame where
  event : String
  data : String
  id : String
  deriving DecidableEq, Repr

/-- A downstream notification as emitted by `node.send`.  The `_sse`
variant sends only the `event` field; the `_p0` variant also carries the
subscriber count and the client address, hence the `Option` fields. -/
structure Notification where
  event : String
  subscribers : Option Nat
  ip : Option String
  deriving DecidableEq, Repr

/-- A registry entry: the correlation id; the stream handle is keyed by
this id in the effect log. -/
structure Subscriber where
  id : String
  deriving DecidableEq, Repr

/-- The node state: subscriber registry plus the node-level configured
event name and data. -/
structure Node where
  subscribers : List Subscriber
  event : JSValue
  data : JSValue
  deriving DecidableEq, Repr

/-- Which transport operations throw, keyed by the subscriber id owning
the stream.  `writeFails` covers the write/flush block of a frame,
`endFails` the `end()` call. -/
structure Env where
  writeFails : String → Bool
  endFails : String → Bool

/-- Observable side effects, in program order. -/
inductive Effect where
  | headWritten (sid : String)
  | frameWritten (sid : String) (f : Frame)
  | warnLogged (m : String)
  | errorLogged (m : String)
  | streamEnded (sid : String)
  | endFailed (sid : String)
  | listenerAdded (sid : String)
  | listenerRemoved (sid : String)
  | sent (n : Notification)
  | statusSet (fill : String) (text : String)
  | doneCalled
  deriving DecidableEq, Repr

/-- The status text published by `updateNodeStatus`. -/
def statusText (n : Nat) : String :=
  toString n ++ " client(s) connected"

/-- Ids of the registry entries, in insertion order. -/
def idsOf (subs : List Subscriber) : List String :=
  subs.map Subscriber.id

/-- The membership test the source performs before pushing:
`node.subscribers.some(sub => sub.id === msg._msgid)`. -/
def hasId (subs : List Subscriber) (sid : String) : Bool :=
  subs.any (fun sub => sub.id == sid)

/-- The guarded push of `registerSubscriber`: append the entry unless an
entry with the same id is already present. -/
def pushUnlessPresent (subs : List Subscriber) (sid : String) : List Subscriber :=
  if hasId subs sid then subs else subs ++ [⟨sid⟩]

/-- Whether the effect log records an attempt to end the stream `sid`
(a successful end or an end that threw and was swallowed). -/
def endAttempted (effs : List Effect) (sid : String) : Prop :=
  Effect.streamEnded sid ∈ effs ∨ Effect.endFailed sid ∈ effs

instance (effs : List Effect) (sid : String) : Decidable (endAttempted effs sid) := by
  unfold endAttempted
  infer_instance

/-- The notifications handed to `node.send`, extracted from the log. -/
def sentNotifications (effs : List Effect) : List Notification :=
  effs.filterMap (fun e => match e with | .sent n => some n | _ => none)

/-- An inbound registration work item: correlation id, payload and the
client address read off the request socket. -/
structure RegMsg where
  _msgid : String
  payload : JSValue
  ip : String
  deriving DecidableEq, Repr

/-- An inbound broadcast work item (no response handle). -/
structure BroadcastMsg where
  _msgid : String
  topic : JSValue
  payload : JSValue
  deriving DecidableEq, Repr

/-- The data line of the `open` frame: the serialized value of the
payload when truthy, else of the default Connection-opened string,
coerced by the surrounding template literal. -/
def openFrameData (payload : JSValue) : String :=
  jsToString (_serializeData (jsOr payload (JSValue.vStr "Connection opened")))

/-- `registerSubscriber` of `src/unnamed/part_000` (lines 33-109).  The
header and open-frame writes are not guarded by a try/catch, so a write
failure on the registering stream throws out of the function: this is
modelled by the `Option String` component carrying the thrown error.
On the normal path the order of effects follows the source: header,
open frame (with flush), close-listener registration, guarded push,
status update, `connect` notification carrying the current count and
the client address. -/
def registerSubscriber_p0 (env : Env) (node : Node) (msg : RegMsg) :
    Node × List Effect × Option String :=
  if env.writeFails msg._msgid then
    (node, [], some ("write failed " ++ msg._msgid))
  else
    let subs2 := pushUnlessPresent node.subscribers msg._msgid
    let node2 := { node with subscribers := subs2 }
    (node2,
     [Effect.headWritten msg._msgid,
      Effect.frameWritten msg._msgid ⟨"open", openFrameData msg.payload, msg._msgid⟩,
      Effect.listenerAdded msg._msgid,
      Effect.statusSet "green" (statusText subs2.length),
      Effect.sent ⟨"connect", some subs2.length, some msg.ip⟩],
     none)

/-- `registerSubscriber` of `src/sse-server/sse-server.js` (lines
33-71).  Differences from the `_p0` variant: the `connect` notification
is sent right after the open frame, before the listener registration and
the guarded push, and it carries only the `event` field. -/
def registerSubscriber_sse (env : Env) (node : Node) (msg : RegMsg) :
    Node × List Effect × Option String :=
  if env.writeFails msg._msgid then
    (node, [], some ("write failed " ++ msg._msgid))
  else
    let subs2 := pushUnlessPresent node.subscribers msg._msgid
    let node2 := { node with subscribers := subs2 }
    (node2,
     [Effect.headWritten msg._msgid,
      Effect.frameWritten msg._msgid ⟨"open", openFrameData msg.payload, msg._msgid⟩,
      Effect.sent ⟨"connect", none, none⟩,
      Effect.listenerAdded msg._msgid,
      Effect.statusSet "green" (statusText subs2.length)],
     none)

/-- The per-subscriber cleanup block of the `_p0` close handler: one
try block holding the close-frame writes, the flush and the `end`; any
throw inside it is caught and logged, so a write failure skips the
`end` call. -/
def closeCleanup_p0 (env : Env) (sid : String) : List Effect :=
  if env.writeFails sid then
    [Effect.warnLogged ("Error writing close event " ++ sid)]
  else if env.endFails sid then
    [Effect.frameWritten sid ⟨"close", "The connection was closed by the client.", sid⟩,
     Effect.endFailed sid,
     Effect.warnLogged ("Error writing close event " ++ sid)]
  else
    [Effect.frameWritten sid ⟨"close", "The connection was closed by the client.", sid⟩,
     Effect.streamEnded sid]

/-- `closeHandler` of `src/unnamed/part_000` (lines 56-88), fired on
client disconnect.  It looks the subscriber up by id; when absent it
only refreshes the status and removes its own listener.  When present it
runs the guarded cleanup, splices the entry out, emits a `disconnect`
notification with the new count and the captured client address,
refreshes the status and removes its own listener. -/
def closeHandler_p0 (env : Env) (node : Node) (sid ip : String) :
    Node × List Effect :=
  match node.subscribers.find? (fun sub => sub.id == sid) with
  | none =>
      (node,
       [Effect.statusSet "green" (statusText node.subscribers.length),
        Effect.listenerRemoved sid])
  | some _ =>
      let subs2 := node.subscribers.eraseP (fun sub => sub.id == sid)
      ({ node with subscribers := subs2 },
       closeCleanup_p0 env sid ++
       [Effect.sent ⟨"disconnect", some subs2.length, some ip⟩,
        Effect.statusSet "green" (statusText subs2.length),
        Effect.listenerRemoved sid])

/-- The message of the exception raised when the out-of-scope `RED`
binding is referenced.  Both top-level `unregisterSubscriber` functions
mention `RED.log.warn`, but `RED` only exists inside the
`module.exports = function (RED)` wrapper, so reaching any of those
lines throws instead of logging. -/
def refError : String := "ReferenceError: RED is not defined"

/-- `unregisterSubscriber` of `src/unnamed/part_000` (lines 119-165),
the server-initiated removal.  This top-level function references the
out-of-scope `RED` on lines 124, 137, 145 and 155, so every reached
`RED.log.warn` throws a ReferenceError, modelled by the `Option String`
component:
- unknown id: the warn on line 124 throws before any state change;
- a close-frame write failure: the catch on line 137 throws before the
  listener removal, the splice, the end and the disconnect send, so the
  entry stays in the registry;
- an end failure: the catch on line 155 throws after the splice but
  before the disconnect send.
On the failure-free path: close-frame write, listener removal, splice,
end, then the `disconnect` notification with the new count and the
client address. -/
def unregisterSubscriber_p0 (env : Env) (node : Node) (sid ip : String) :
    Node × List Effect × Option String :=
  match node.subscribers.find? (fun sub => sub.id == sid) with
  | none => (node, [], some refError)
  | some _ =>
      if env.writeFails sid then
        (node, [], some refError)
      else
        let subs2 := node.subscribers.eraseP (fun sub => sub.id == sid)
        if env.endFails sid then
          ({ node with subscribers := subs2 },
           [Effect.frameWritten sid
              ⟨"close", "The connection was closed by the server.", sid⟩,
            Effect.listenerRemoved sid,
            Effect.endFailed sid],
           some refError)
        else
          ({ node with subscribers := subs2 },
           [Effect.frameWritten sid
              ⟨"close", "The connection was closed by the server.", sid⟩,
            Effect.listenerRemoved sid,
            Effect.streamEnded sid,
            Effect.sent ⟨"disconnect", some subs2.length, some ip⟩],
           none)

/-- `unregisterSubscriber` of `src/sse-server/sse-server.js` (lines
81-107).  No presence check: close-frame write, bare `disconnect`
notification, registry filter, `end`.  `RED` is out of scope in this
top-level function too, so the catches on lines 89 and 105 throw a
ReferenceError when reached:
- a write failure throws before the send, the filter and the end;
- an end failure throws last, after the send and the filter. -/
def unregisterSubscriber_sse (env : Env) (node : Node) (sid : String) :
    Node × List Effect × Option String :=
  if env.writeFails sid then
    (node, [], some refError)
  else
    let subs2 := node.subscribers.filter (fun sub => sub.id != sid)
    if env.endFails sid then
      ({ node with subscribers := subs2 },
       [Effect.frameWritten sid
          ⟨"close", "The connection was closed by the server.", sid⟩,
        Effect.sent ⟨"disconnect", none, none⟩,
        Effect.endFailed sid],
       some refError)
    else
      ({ node with subscribers := subs2 },
       [Effect.frameWritten sid
          ⟨"close", "The connection was closed by the server.", sid⟩,
        Effect.sent ⟨"disconnect", none, none⟩,
        Effect.streamEnded sid],
       none)

/-- `closeHandler` of `src/sse-server/sse-server.js` (lines 55-61): it
unconditionally calls `unregisterSubscriber`; when that throws, the
status refresh and the listener removal are skipped and the exception
escapes into the transport event emitter. -/
def closeHandler_sse (env : Env) (node : Node) (sid : String) :
    Node × List Effect × Option String :=
  let r := unregisterSubscriber_sse env node sid
  match r.2.2 with
  | some e => (r.1, r.2.1, some e)
  | none =>
      (r.1,
       r.2.1 ++ [Effect.statusSet "green" (statusText r.1.subscribers.length),
                 Effect.listenerRemoved sid],
       none)

/-- The effective event name of a broadcast: the node-level event when
truthy, else the work item topic when truthy, else the literal
message, coerced by the template literal. -/
def effectiveEventName (node : Node) (msg : BroadcastMsg) : String :=
  jsToString (jsOr (jsOr node.event msg.topic) (JSValue.vStr "message"))

/-- The effective data of a broadcast:
`${_serializeData(node.data || msg.payload)}`. -/
def effectiveData (node : Node) (msg : BroadcastMsg) : String :=
  jsToString (_serializeData (jsOr node.data msg.payload))

/-- The filter callback of `handleServerEvent`, applied over the
subscriber list (identical in both source variants): write the frame and
keep the subscriber, or on a write failure warn, attempt to end the
stream (an end failure is swallowed with a second warning) and drop the
subscriber. -/
def broadcastFilter (env : Env) (event data msgid : String) :
    List Subscriber → List Subscriber × List Effect
  | [] => ([], [])
  | sub :: rest =>
      let step :=
        if env.writeFails sub.id then
          (false,
           [Effect.warnLogged ("Error sending event to subscriber " ++ sub.id)] ++
           (if env.endFails sub.id then
              [Effect.endFailed sub.id,
               Effect.warnLogged ("Error ending subscriber response " ++ sub.id)]
            else
              [Effect.streamEnded sub.id]))
        else
          (true, [Effect.frameWritten sub.id ⟨event, data, msgid⟩])
      let r := broadcastFilter env event data msgid rest
      ((if step.1 then sub :: r.1 else r.1), step.2 ++ r.2)

/-- `handleServerEvent` (lines 115-141 of `sse-server.js`, lines 173-205
of `part_000`; the two are identical up to an early `msg = null`):
resolve the event name and data, then reassign the registry to the
filtered subscriber list. -/
def handleServerEvent (env : Env) (node : Node) (msg : BroadcastMsg) :
    Node × List Effect :=
  let r := broadcastFilter env (effectiveEventName node msg) (effectiveData node msg)
             msg._msgid node.subscribers
  ({ node with subscribers := r.1 }, r.2)

/-- The per-subscriber body of the `_p0` runtime-event handler (lines
270-287 of `part_000`): one try block holding the listener removal, the
close-frame writes, the flush and the `end`; a throw anywhere in it is
caught and logged, so a write failure skips the `end` for that
subscriber but never aborts the loop. -/
def drainSub_p0 (env : Env) (sub : Subscriber) : List Effect :=
  if env.writeFails sub.id then
    [Effect.listenerRemoved sub.id,
     Effect.warnLogged ("Error closing subscriber response " ++ sub.id)]
  else if env.endFails sub.id then
    [Effect.listenerRemoved sub.id,
     Effect.frameWritten sub.id ⟨"close", "Collection closed", "0"⟩,
     Effect.endFailed sub.id,
     Effect.warnLogged ("Error closing subscriber response " ++ sub.id)]
  else
    [Effect.listenerRemoved sub.id,
     Effect.frameWritten sub.id ⟨"close", "Collection closed", "0"⟩,
     Effect.streamEnded sub.id]

/-- `_runtimeHandler` of `src/unnamed/part_000` (lines 268-291): status
update, per-subscriber guarded cleanup in registry order, then the
registry is cleared unconditionally. -/
def runtimeHandler_p0 (env : Env) (node : Node) : Node × List Effect :=
  ({ node with subscribers := [] },
   [Effect.statusSet "green" (statusText node.subscribers.length)] ++
   (node.subscribers.map (drainSub_p0 env)).flatten)

/-- The forEach body of the `sse-server.js` runtime-event handler (lines
175-192): the close-frame writes and the flush are NOT inside a try, so
a write failure throws out of the forEach; only the `end` is guarded.
Returns the effects produced before any throw and whether the loop ran
to completion. -/
def drainList_sse (env : Env) : List Subscriber → List Effect × Bool
  | [] => ([], true)
  | sub :: rest =>
      if env.writeFails sub.id then
        ([], false)
      else
        let mine :=
          [Effect.frameWritten sub.id ⟨"close", "Collection closed", "0"⟩] ++
          (if env.endFails sub.id then
             [Effect.endFailed sub.id,
              Effect.warnLogged ("Error closing subscriber response " ++ sub.id)]
           else
             [Effect.streamEnded sub.id])
        let r := drainList_sse env rest
        (mine ++ r.1, r.2)

/-- The runtime-event handler of `src/sse-server/sse-server.js`: status
update, then the unguarded forEach; the registry is cleared only when
the loop ran to completion (the assignment `this.subscribers = []` sits
after the forEach and is skipped when a write throws).  The Bool result
is true when no exception escaped. -/
def runtimeHandler_sse (env : Env) (node : Node) : Node × List Effect × Bool :=
  let r := drainList_sse env node.subscribers
  ((if r.2 then { node with subscribers := [] } else node),
   [Effect.statusSet "green" (statusText node.subscribers.length)] ++ r.1,
   r.2)

/-- An inbound work item: a registration (the message carries a response
handle) or a broadcast. -/
inductive InMsg where
  | reg (m : RegMsg)
  | evt (m : BroadcastMsg)
  deriving DecidableEq, Repr

/-- The `input` handler (lines 159-172 of `sse-server.js`, lines 223-236
of `part_000`, identical): dispatch on `msg.res`; any exception is
caught, logged as an error and the status set to the red indicator; the
finally block invokes the completion callback when one was provided.
Modelled over the `_p0` registration variant. -/
def onInput (env : Env) (node : Node) (m : InMsg) (doneProvided : Bool) :
    Node × List Effect :=
  let r :=
    match m with
    | .reg rm => registerSubscriber_p0 env node rm
    | .evt bm =>
        let b := handleServerEvent env node bm
        (b.1, b.2, none)
  let effs :=
    match r.2.2 with
    | none => r.2.1
    | some e =>
        r.2.1 ++ [Effect.errorLogged e,
                  Effect.statusSet "red" (statusText r.1.subscribers.length)]
  (r.1, effs ++ (if doneProvided then [Effect.doneCalled] else []))

/-! Concrete fixtures used by witnesses and counterexamples. -/

/-- An environment in which no transport operation throws. -/
def envOK : Env := ⟨fun _ => false, fun _ => false⟩

/-- An environment in which writes to the stream of id `a` throw. -/
def envFailA : Env := ⟨fun s => s == "a", fun _ => false⟩

/-- An environment in which writes to the stream of id `m1` throw. -/
def envFailM1 : Env := ⟨fun s => s == "m1", fun _ => false⟩

/-- A node with an empty registry and no configured event or data. -/
def nodeEmpty : Node := ⟨[], .vUndefined, .vUndefined⟩

/-- A node tracking the single subscriber `a`. -/
def nodeA : Node := ⟨[⟨"a"⟩], .vUndefined, .vUndefined⟩

/-- A node tracking the subscribers `a` then `b`. -/
def nodeAB : Node := ⟨[⟨"a"⟩, ⟨"b"⟩], .vUndefined, .vUndefined⟩

/-- A node tracking the single subscriber `m1`. -/
def nodeM1 : Node := ⟨[⟨"m1"⟩], .vUndefined, .vUndefined⟩

/-- A broadcast work item with topic `tick`. -/
def msgTick : BroadcastMsg := ⟨"m1", .vStr "tick", .vStr "hello"⟩

/-- A registration work item with an absent payload. -/
def msgReg : RegMsg := ⟨"m1", .vUndefined, "203.0.113.7"⟩

/-! Helper lemmas. -/

theorem endAttempted_append (l1 l2 : List Effect) (sid : String) :
    endAttempted (l1 ++ l2) sid ↔ (endAttempted l1 sid ∨ endAttempted l2 sid) := by
  simp only [endAttempted, List.mem_append]
  tauto

theorem broadcastFilter_subscribers (env : Env) (e d m : String) :
    ∀ subs : List Subscriber,
      (broadcastFilter env e d m subs).1 =
        subs.filter (fun s => !env.writeFails s.id)
  | [] => rfl
  | sub :: rest => by
      simp only [broadcastFilter, List.filter_cons]
      cases h : env.writeFails sub.id <;>
        simp [h, broadcastFilter_subscribers env e d m rest]

theorem broadcastFilter_endAttempted (env : Env) (e d m : String) :
    ∀ subs : List Subscriber, ∀ s ∈ subs, env.writeFails s.id = true →
      endAttempted (broadcastFilter env e d m subs).2 s.id := by
  intro subs
  induction subs with
  | nil => intro s hs; cases hs
  | cons sub rest ih =>
      intro s hs hw
      rcases List.mem_cons.mp hs with heq | hmem
      · subst heq
        rw [broadcastFilter, endAttempted_append]
        refine Or.inl ?_
        cases he : env.endFails s.id <;>
          simp [endAttempted, hw, he]
      · have hrec := ih s hmem hw
        rw [broadcastFilter, endAttempted_append]
        exact Or.inr hrec

theorem hasId_iff (subs : List Subscriber) (sid : String) :
    hasId subs sid = true ↔ sid ∈ idsOf subs := by
  simp only [hasId, idsOf, List.any_eq_true, List.mem_map, beq_iff_eq]

theorem idsOf_push (subs : List Subscriber) (sid : String) :
    idsOf (pushUnlessPresent subs sid) =
      if sid ∈ idsOf subs then idsOf subs else idsOf subs ++ [sid] := by
  by_cases h : sid ∈ idsOf subs
  · rw [if_pos h]
    unfold pushUnlessPresent
    rw [if_pos ((hasId_iff subs sid).mpr h)]
  · rw [if_neg h]
    unfold pushUnlessPresent
    rw [if_neg (fun hc => h ((hasId_iff subs sid).mp hc))]
    simp [idsOf]

theorem pushAll_ids (l : List String) :
    ∀ subs : List Subscriber, (idsOf subs).Nodup →
      (idsOf (l.foldl pushUnlessPresent subs)).Nodup ∧
      (idsOf (l.foldl pushUnlessPresent subs)).toFinset = (idsOf subs).toFinset ∪ l.toFinset := by
  induction l with
  | nil => intro subs hnd; simpa using hnd
  | cons a l ih =>
      intro subs hnd
      simp only [List.foldl_cons]
      have key := idsOf_push subs a
      by_cases h : a ∈ idsOf subs
      · rw [if_pos h] at key
        obtain ⟨h1, h2⟩ := ih (pushUnlessPresent subs a) (by rw [key]; exact hnd)
        refine ⟨h1, ?_⟩
        rw [h2, key]
        ext x
        simp only [Finset.mem_union, List.mem_toFinset, List.toFinset_cons,
          Finset.mem_insert]
        constructor
        · rintro (hx | hx)
          · exact Or.inl hx
          · exact Or.inr (Or.inr hx)
        · rintro (hx | hx | hx)
          · exact Or.inl hx
          · exact Or.inl (hx ▸ h)
          · exact Or.inr hx
      · rw [if_neg h] at key
        have hnd2 : (idsOf (pushUnlessPresent subs a)).Nodup := by
          rw [key]
          refine List.Nodup.append hnd (List.nodup_singleton a) ?_
          intro x hx hy
          rw [List.mem_singleton] at hy
          exact h (hy ▸ hx)
        obtain ⟨h1, h2⟩ := ih (pushUnlessPresent subs a) hnd2
        refine ⟨h1, ?_⟩
        rw [h2, key]
        ext x
        simp only [Finset.mem_union, List.mem_toFinset, List.mem_append,
          List.mem_singleton, List.toFinset_cons, Finset.mem_insert]
        tauto

/-! Claim theorems. -/

/-- C1: Broadcast reconciliation.  After `handleServerEvent`, the
registry is exactly the original subscriber list filtered to those whose
writes succeed (hence N minus the failing ones, in original relative
order), and for every subscriber whose write throws an end of its stream
was attempted (a successful end or a swallowed end failure). -/
theorem broadcast_reconciliation (env : Env) (node : Node) (msg : BroadcastMsg) :
    (handleServerEvent env node msg).1.subscribers =
        node.subscribers.filter (fun s => !env.writeFails s.id) ∧
    ∀ s ∈ node.subscribers, env.writeFails s.id = true →
      endAttempted (handleServerEvent env node msg).2 s.id := by
  constructor
  · exact broadcastFilter_subscribers env _ _ _ node.subscribers
  · intro s hs hw
    exact broadcastFilter_endAttempted env _ _ _ node.subscribers s hs hw

/-- Witness for C1 at a node with subscribers `a`, `b` where the write
to `a` throws: the registry afterwards is `[b]` and an end of the stream
of `a` was attempted. -/
theorem broadcast_reconciliation_witness :
    (handleServerEvent envFailA nodeAB msgTick).1.subscribers =
        nodeAB.subscribers.filter (fun s => !envFailA.writeFails s.id) ∧
    endAttempted (handleServerEvent envFailA nodeAB msgTick).2 "a" :=
  ⟨(broadcast_reconciliation envFailA nodeAB msgTick).1,
   (broadcast_reconciliation envFailA nodeAB msgTick).2 ⟨"a"⟩ (by decide) (by decide)⟩

/-- C2: Idempotent admission.  Admitting an id already present leaves
the registry unchanged, and folding any sequence of admissions over the
empty registry yields a registry whose size is the number of distinct
ids admitted. -/
theorem admission_idempotent_count :
    (∀ (subs : List Subscriber) (sid : String),
        hasId subs sid = true → pushUnlessPresent subs sid = subs) ∧
    ∀ l : List String, (l.foldl pushUnlessPresent []).length = l.toFinset.card := by
  constructor
  · intro subs sid h
    unfold pushUnlessPresent
    rw [if_pos h]
  · intro l
    obtain ⟨hnd, hfin⟩ := pushAll_ids l [] (by simp [idsOf])
    have hlen : (idsOf (l.foldl pushUnlessPresent [])).length = (l.foldl pushUnlessPresent []).length := by
      simp [idsOf]
    calc (l.foldl pushUnlessPresent []).length
        = (idsOf (l.foldl pushUnlessPresent [])).length := hlen.symm
      _ = (idsOf (l.foldl pushUnlessPresent [])).toFinset.card :=
          (List.toFinset_card_of_nodup hnd).symm
      _ = l.toFinset.card := by
          rw [hfin]
          simp [idsOf]

/-- Witness for C2: admitting the duplicate id `a` is a no-op, and the
sequence `a`, `b`, `a` yields a registry of size two. -/
theorem admission_idempotent_count_witness :
    pushUnlessPresent [⟨"a"⟩] "a" = [⟨"a"⟩] ∧
    ((["a", "b", "a"] : List String).foldl pushUnlessPresent []).length =
        (["a", "b", "a"] : List String).toFinset.card :=
  ⟨admission_idempotent_count.1 [⟨"a"⟩] "a" (by decide),
   admission_idempotent_count.2 ["a", "b", "a"]⟩

theorem hasId_eq_false (subs : List Subscriber) (sid : String) :
    hasId subs sid = false ↔ sid ∉ idsOf subs := by
  constructor
  · intro h hc
    rw [(hasId_iff subs sid).mpr hc] at h
    cases h
  · intro h
    cases hh : hasId subs sid
    · rfl
    · exact absurd ((hasId_iff subs sid).mp hh) h

theorem forall_ne_of_hasId_false {subs : List Subscriber} {sid : String}
    (h : hasId subs sid = false) : ∀ sub ∈ subs, sub.id ≠ sid := by
  intro sub hmem hc
  exact (hasId_eq_false subs sid).mp h (List.mem_map.mpr ⟨sub, hmem, hc⟩)

theorem find?_none_of_hasId_false {subs : List Subscriber} {sid : String}
    (h : hasId subs sid = false) :
    subs.find? (fun sub => sub.id == sid) = none := by
  rw [List.find?_eq_none]
  intro x hx
  simpa using forall_ne_of_hasId_false h x hx

theorem find?_some_of_hasId_true {subs : List Subscriber} {sid : String}
    (h : hasId subs sid = true) :
    ∃ x, subs.find? (fun sub => sub.id == sid) = some x := by
  cases hf : subs.find? (fun sub => sub.id == sid) with
  | some x => exact ⟨x, rfl⟩
  | none =>
      rcases List.any_eq_true.mp h with ⟨sub, hmem, hpred⟩
      have := List.find?_eq_none.mp hf sub hmem
      exact absurd hpred this

theorem filter_ne_eq_self {subs : List Subscriber} {sid : String}
    (h : hasId subs sid = false) :
    subs.filter (fun sub => sub.id != sid) = subs := by
  rw [List.filter_eq_self]
  intro a ha
  simpa using forall_ne_of_hasId_false h a ha

theorem hasId_eraseP (sid : String) :
    ∀ subs : List Subscriber, (idsOf subs).Nodup →
      hasId (subs.eraseP (fun sub => sub.id == sid)) sid = false
  | [], _ => rfl
  | sub :: rest, hnd => by
      have hnd2 : (idsOf rest).Nodup := (List.nodup_cons.mp hnd).2
      have hhead : sub.id ∉ idsOf rest := (List.nodup_cons.mp hnd).1
      rw [List.eraseP_cons]
      cases hp : (sub.id == sid)
      · simp only [cond_false]
        rw [hasId_eq_false]
        intro hc
        rcases List.mem_map.mp hc with ⟨x, hx, hxid⟩
        rcases List.mem_cons.mp hx with heq | hmem
        · subst heq
          exact absurd (by simpa using hxid) (by simpa using hp)
        · have hx2 : x ∈ rest.eraseP (fun sub => sub.id == sid) := hmem
          have hx3 : x ∈ rest := List.mem_of_mem_eraseP hx2
          have := (hasId_eraseP sid rest hnd2)
          exact forall_ne_of_hasId_false this x hx2 hxid
      · simp only [cond_true]
        rw [hasId_eq_false]
        have hsub : sub.id = sid := by simpa using hp
        rw [← hsub]
        exact hhead

theorem drainSub_p0_ends_only_own (env : Env) (sub : Subscriber) (sid : String)
    (h : sub.id ≠ sid) : ¬ endAttempted (drainSub_p0 env sub) sid := by
  unfold drainSub_p0
  cases hw : env.writeFails sub.id <;> cases he : env.endFails sub.id <;>
    simp [endAttempted, hw, he, Ne.symm h]

theorem drainSub_p0_endAttempted (env : Env) (sub : Subscriber)
    (h : env.writeFails sub.id = false) :
    endAttempted (drainSub_p0 env sub) sub.id := by
  unfold drainSub_p0
  cases he : env.endFails sub.id <;>
    simp [endAttempted, h, he]

theorem endAttempted_flatten_of_mem {ls : List (List Effect)} {l : List Effect}
    (hl : l ∈ ls) {sid : String} (h : endAttempted l sid) :
    endAttempted ls.flatten sid := by
  rcases h with h | h
  · exact Or.inl (List.mem_flatten.mpr ⟨l, hl, h⟩)
  · exact Or.inr (List.mem_flatten.mpr ⟨l, hl, h⟩)

theorem drain_p0_no_end_for_absent (env : Env) (subs : List Subscriber)
    (sid : String) (h : hasId subs sid = false) :
    ¬ endAttempted ((subs.map (drainSub_p0 env)).flatten) sid := by
  intro hc
  rcases hc with hmem | hmem
  · rw [List.mem_flatten] at hmem
    obtain ⟨l, hl, hel⟩ := hmem
    rcases List.mem_map.mp hl with ⟨sub, hsub, rfl⟩
    exact drainSub_p0_ends_only_own env sub sid
      (forall_ne_of_hasId_false h sub hsub) (Or.inl hel)
  · rw [List.mem_flatten] at hmem
    obtain ⟨l, hl, hel⟩ := hmem
    rcases List.mem_map.mp hl with ⟨sub, hsub, rfl⟩
    exact drainSub_p0_ends_only_own env sub sid
      (forall_ne_of_hasId_false h sub hsub) (Or.inr hel)

/-- C3 (amended): in the part_000 variant, at most one trigger performs
the stream-ending side effect, and a trigger that observes the id
absent performs no write, no end and no registry mutation: the
disconnect handler only refreshes the status and removes its own
listener, the drain attempts no end for an id it does not track, and
the server removal touches no state — though instead of logging the
intended warning it throws a ReferenceError at the out-of-scope
`RED.log.warn` on line 124.  On a registry with unique ids, the
disconnect handler and the drain always leave the id absent, and the
server removal does so whenever its close-frame write does not throw
(when that write throws, the catch on line 137 itself throws before
the splice, leaving the entry present — but also unended, preserving
at-most-once).  In the sse-server.js variant the claim fails: a
client-disconnect callback firing after the entry was removed still
writes a close frame and ends the stream (see the counterexample). -/
theorem exactly_once_removal (env : Env) (node : Node) (sid ip : String) :
    ((idsOf node.subscribers).Nodup →
        hasId (closeHandler_p0 env node sid ip).1.subscribers sid = false ∧
        hasId (runtimeHandler_p0 env node).1.subscribers sid = false ∧
        (env.writeFails sid = false →
          hasId (unregisterSubscriber_p0 env node sid ip).1.subscribers sid = false)) ∧
    (hasId node.subscribers sid = false →
        closeHandler_p0 env node sid ip =
          (node, [Effect.statusSet "green" (statusText node.subscribers.length),
                  Effect.listenerRemoved sid]) ∧
        unregisterSubscriber_p0 env node sid ip = (node, [], some refError) ∧
        ¬ endAttempted (runtimeHandler_p0 env node).2 sid) := by
  constructor
  · intro hnd
    refine ⟨?_, rfl, ?_⟩
    · cases hf : node.subscribers.find? (fun sub => sub.id == sid) with
      | none =>
          have hfalse : hasId node.subscribers sid = false := by
            cases hh : hasId node.subscribers sid
            · rfl
            · obtain ⟨x, hx⟩ := find?_some_of_hasId_true hh
              rw [hx] at hf
              cases hf
          unfold closeHandler_p0
          rw [hf]
          exact hfalse
      | some x =>
          unfold closeHandler_p0
          rw [hf]
          exact hasId_eraseP sid node.subscribers hnd
    · intro hwf
      cases hf : node.subscribers.find? (fun sub => sub.id == sid) with
      | none =>
          have hfalse : hasId node.subscribers sid = false := by
            cases hh : hasId node.subscribers sid
            · rfl
            · obtain ⟨x, hx⟩ := find?_some_of_hasId_true hh
              rw [hx] at hf
              cases hf
          unfold unregisterSubscriber_p0
          rw [hf]
          exact hfalse
      | some x =>
          unfold unregisterSubscriber_p0
          rw [hf]
          simp only [hwf, Bool.false_eq_true, if_false]
          cases he : env.endFails sid <;>
            simp only [he, Bool.false_eq_true, if_false, if_true] <;>
            exact hasId_eraseP sid node.subscribers hnd
  · intro h
    have hf := find?_none_of_hasId_false h
    refine ⟨?_, ?_, ?_⟩
    · unfold closeHandler_p0
      rw [hf]
    · unfold unregisterSubscriber_p0
      rw [hf]
    · intro hc
      rcases (endAttempted_append _ _ _).mp hc with h1 | h2
      · rcases h1 with h1 | h1 <;> simp at h1
      · exact drain_p0_no_end_for_absent env node.subscribers sid h h2

/-- Witness for C3 at concrete inputs: removing `m1` via the disconnect
handler leaves `m1` absent, and a disconnect-handler fire for the
unknown id `zz` returns the node unchanged with only a status refresh
and its own listener removal. -/
theorem exactly_once_removal_witness :
    hasId (closeHandler_p0 envOK nodeM1 "m1" "203.0.113.7").1.subscribers "m1" = false ∧
    closeHandler_p0 envOK nodeA "zz" "203.0.113.7" =
      (nodeA, [Effect.statusSet "green" (statusText nodeA.subscribers.length),
               Effect.listenerRemoved "zz"]) :=
  ⟨((exactly_once_removal envOK nodeM1 "m1" "203.0.113.7").1 (by decide)).1,
   ((exactly_once_removal envOK nodeA "zz" "203.0.113.7").2 (by decide)).1⟩

/-- C3 counterexample: in the sse-server.js variant, after
`unregisterSubscriber` has removed `m1` from the registry, a
client-disconnect callback fire for the same id is not a no-op: it
writes another close frame and ends the stream again, because the
`closeHandler` of that variant calls `unregisterSubscriber` without
any presence check (on this failure-free path no catch block runs, so
the out-of-scope `RED` is never touched). -/
theorem closeHandler_sse_after_removal_not_noop :
    (unregisterSubscriber_sse envOK nodeM1 "m1").1.subscribers = [] ∧
    endAttempted
      (closeHandler_sse envOK (unregisterSubscriber_sse envOK nodeM1 "m1").1 "m1").2.1 "m1" ∧
    Effect.frameWritten "m1"
        ⟨"close", "The connection was closed by the server.", "m1"⟩ ∈
      (closeHandler_sse envOK (unregisterSubscriber_sse envOK nodeM1 "m1").1 "m1").2.1 := by
  decide

/-- C4 (amended): after the global redeploy signal, the part_000
`_runtimeHandler` empties the registry; every subscriber whose
close-frame write does not throw has an end attempted, regardless of
failures on other subscribers (one failure never aborts the cleanup of
the rest); a subscriber whose write throws gets the failure caught and
logged as a warning, but its `end` call is skipped, since write and end
sit in the same try block.  In the sse-server.js variant the
per-subscriber write is unguarded: when the loop does not run to
completion the registry assignment is skipped and the node is left
unchanged. -/
theorem drain_completeness (env : Env) (node : Node) :
    (runtimeHandler_p0 env node).1.subscribers = [] ∧
    (∀ sub ∈ node.subscribers, env.writeFails sub.id = false →
        endAttempted (runtimeHandler_p0 env node).2 sub.id) ∧
    (∀ sub ∈ node.subscribers, env.writeFails sub.id = true →
        Effect.warnLogged ("Error closing subscriber response " ++ sub.id) ∈
          (runtimeHandler_p0 env node).2) ∧
    ((runtimeHandler_sse env node).2.2 = false →
        (runtimeHandler_sse env node).1 = node) := by
  refine ⟨rfl, ?_, ?_, ?_⟩
  · intro sub hmem hok
    have h1 : endAttempted (drainSub_p0 env sub) sub.id :=
      drainSub_p0_endAttempted env sub hok
    have h2 : drainSub_p0 env sub ∈ node.subscribers.map (drainSub_p0 env) :=
      List.mem_map_of_mem _ hmem
    exact (endAttempted_append _ _ _).mpr (Or.inr (endAttempted_flatten_of_mem h2 h1))
  · intro sub hmem hfail
    have h2 : drainSub_p0 env sub ∈ node.subscribers.map (drainSub_p0 env) :=
      List.mem_map_of_mem _ hmem
    have hwmem : Effect.warnLogged ("Error closing subscriber response " ++ sub.id) ∈
        drainSub_p0 env sub := by
      unfold drainSub_p0
      simp [hfail]
    exact List.mem_append.mpr (Or.inr (List.mem_flatten.mpr ⟨_, h2, hwmem⟩))
  · intro h
    have h2 : (drainList_sse env node.subscribers).2 = false := h
    simp [runtimeHandler_sse, h2]

/-- Witness for C4: with subscribers `a`, `b` where the write to `a`
throws during the drain, the part_000 handler still attempts an end of
the stream of `b`, while the sse-server.js handler aborts and leaves the
node unchanged. -/
theorem drain_completeness_witness :
    endAttempted (runtimeHandler_p0 envFailA nodeAB).2 "b" ∧
    (runtimeHandler_sse envFailA nodeAB).1 = nodeAB :=
  ⟨(drain_completeness envFailA nodeAB).2.1 ⟨"b"⟩ (by decide) (by decide),
   (drain_completeness envFailA nodeAB).2.2.2 (by decide)⟩

/-- C4 counterexample: with a failing write on the stream of `a`, the
part_000 drain never attempts to end the stream of `a` (the end sits in
the same try block as the throwing write), and in the sse-server.js
variant the same failure aborts the whole pass: the registry keeps its
two entries and the stream of `b` is never ended.  This refutes the
claim that every previously-tracked stream received an end call and
that the registry size is always 0 afterwards. -/
theorem drain_not_all_ended :
    (¬ endAttempted (runtimeHandler_p0 envFailA nodeA).2 "a") ∧
    (runtimeHandler_sse envFailA nodeAB).1.subscribers.length = 2 ∧
    (¬ endAttempted (runtimeHandler_sse envFailA nodeAB).2.1 "b") := by
  decide

/-- C5 (amended): a server-initiated removal for an id absent from the
registry performs, in the part_000 variant, no state change — no close
frame, no end, no disconnect notification, registry unchanged — but it
does not log the intended warning either: the `RED.log.warn` on line
124 references the out-of-scope `RED`, so the operation throws a
ReferenceError with no effects at all.  In the sse-server.js variant
the registry is also unchanged but the operation is not a no-op: when
its close-frame write does not throw it writes the frame, emits a bare
disconnect notification and attempts to end the stream; when the write
throws, the catch on line 89 throws a ReferenceError before any other
effect. -/
theorem unregister_not_found (env : Env) (node : Node) (sid ip : String)
    (h : hasId node.subscribers sid = false) :
    unregisterSubscriber_p0 env node sid ip = (node, [], some refError) ∧
    (unregisterSubscriber_sse env node sid).1 = node ∧
    (env.writeFails sid = false →
        sentNotifications (unregisterSubscriber_sse env node sid).2.1 =
          [⟨"disconnect", none, none⟩] ∧
        endAttempted (unregisterSubscriber_sse env node sid).2.1 sid) ∧
    (env.writeFails sid = true →
        (unregisterSubscriber_sse env node sid).2 = ([], some refError)) := by
  refine ⟨?_, ?_, ?_, ?_⟩
  · unfold unregisterSubscriber_p0
    rw [find?_none_of_hasId_false h]
  · unfold unregisterSubscriber_sse
    cases hw : env.writeFails sid
    · cases he : env.endFails sid <;>
        · simp only [hw, he, Bool.false_eq_true, if_false, if_true]
          show Node.mk (node.subscribers.filter (fun sub => sub.id != sid))
            node.event node.data = node
          rw [filter_ne_eq_self h]
    · simp [hw]
  · intro hw
    unfold unregisterSubscriber_sse
    cases he : env.endFails sid <;>
      constructor <;>
      simp [sentNotifications, endAttempted, hw, he]
  · intro hw
    unfold unregisterSubscriber_sse
    simp [hw]

/-- Witness for C5 at the unknown id `zz` against a registry tracking
only `a`, in the failure-free environment. -/
theorem unregister_not_found_witness :
    unregisterSubscriber_p0 envOK nodeA "zz" "203.0.113.7" =
      (nodeA, [], some refError) ∧
    sentNotifications (unregisterSubscriber_sse envOK nodeA "zz").2.1 =
      [⟨"disconnect", none, none⟩] :=
  ⟨(unregister_not_found envOK nodeA "zz" "203.0.113.7" (by decide)).1,
   ((unregister_not_found envOK nodeA "zz" "203.0.113.7" (by decide)).2.2.1
      (by decide)).1⟩

/-- C5 counterexample: for the unknown id `zz` against an empty
registry, the part_000 removal produces no warning at all (it throws a
ReferenceError with an empty effect log), and the sse-server.js removal
writes a close frame, emits a disconnect notification and ends the
stream — so the operation neither logs the claimed warning in the one
variant nor is free of writes in the other. -/
theorem unregister_sse_unknown_writes :
    hasId nodeEmpty.subscribers "zz" = false ∧
    (unregisterSubscriber_p0 envOK nodeEmpty "zz" "203.0.113.7").2 =
      ([], some refError) ∧
    (unregisterSubscriber_sse envOK nodeEmpty "zz").2.1 =
      [Effect.frameWritten "zz"
        ⟨"close", "The connection was closed by the server.", "zz"⟩,
       Effect.sent ⟨"disconnect", none, none⟩,
       Effect.streamEnded "zz"] := by
  decide

theorem sentNotifications_append (l1 l2 : List Effect) :
    sentNotifications (l1 ++ l2) = sentNotifications l1 ++ sentNotifications l2 := by
  simp [sentNotifications, List.filterMap_append]

theorem sentNotifications_closeCleanup (env : Env) (sid : String) :
    sentNotifications (closeCleanup_p0 env sid) = [] := by
  unfold closeCleanup_p0
  cases hw : env.writeFails sid <;> cases he : env.endFails sid <;>
    simp [sentNotifications, hw, he]

theorem sentNotifications_broadcastFilter (env : Env) (e d m : String) :
    ∀ subs : List Subscriber,
      sentNotifications (broadcastFilter env e d m subs).2 = []
  | [] => rfl
  | sub :: rest => by
      have ih := sentNotifications_broadcastFilter env e d m rest
      cases hw : env.writeFails sub.id <;> cases he : env.endFails sub.id <;>
        · simp [broadcastFilter, hw, he, sentNotifications_append, sentNotifications]
          exact List.filterMap_eq_nil_iff.mp ih

/-- C6 (amended): in the part_000 variant, the connect notification of
a registration and the disconnect notification of the disconnect
handler each carry the registry size at the time of emission and the
client address, and a broadcast pass emits no notification at all.  The
server-initiated removal emits its disconnect notification (with the
new count and the client address) only when neither its close-frame
write nor its end throws: when one does, the catch references the
out-of-scope `RED` and throws before `node.send`, so no notification is
emitted at all.  In the sse-server.js variant the claim fails outright:
its notifications carry only the event field (see the
counterexample). -/
theorem notification_shape (env : Env) (node : Node) (msg : BroadcastMsg)
    (rm : RegMsg) (sid ip : String) :
    (env.writeFails rm._msgid = false →
        sentNotifications (registerSubscriber_p0 env node rm).2.1 =
          [⟨"connect",
            some (registerSubscriber_p0 env node rm).1.subscribers.length,
            some rm.ip⟩]) ∧
    (hasId node.subscribers sid = true →
        sentNotifications (closeHandler_p0 env node sid ip).2 =
          [⟨"disconnect",
            some (closeHandler_p0 env node sid ip).1.subscribers.length,
            some ip⟩]) ∧
    (hasId node.subscribers sid = true → env.writeFails sid = false →
      env.endFails sid = false →
        sentNotifications (unregisterSubscriber_p0 env node sid ip).2.1 =
          [⟨"disconnect",
            some (unregisterSubscriber_p0 env node sid ip).1.subscribers.length,
            some ip⟩]) ∧
    ((env.writeFails sid = true ∨ env.endFails sid = true) →
        sentNotifications (unregisterSubscriber_p0 env node sid ip).2.1 = []) ∧
    sentNotifications (handleServerEvent env node msg).2 = [] := by
  refine ⟨?_, ?_, ?_, ?_, ?_⟩
  · intro hok
    simp [registerSubscriber_p0, hok, sentNotifications]
  · intro hpres
    obtain ⟨x, hf⟩ := find?_some_of_hasId_true hpres
    unfold closeHandler_p0
    rw [hf]
    simp only [sentNotifications_append, sentNotifications_closeCleanup,
      List.nil_append]
    rfl
  · intro hpres hw he
    obtain ⟨x, hf⟩ := find?_some_of_hasId_true hpres
    unfold unregisterSubscriber_p0
    rw [hf]
    simp [hw, he, sentNotifications]
  · intro hor
    cases hf : node.subscribers.find? (fun sub => sub.id == sid) with
    | none =>
        unfold unregisterSubscriber_p0
        rw [hf]
        rfl
    | some x =>
        unfold unregisterSubscriber_p0
        rw [hf]
        rcases hor with hw | he
        · simp [hw, sentNotifications]
        · cases hw : env.writeFails sid
          · simp [hw, he, sentNotifications]
          · simp [hw, sentNotifications]
  · exact sentNotifications_broadcastFilter env _ _ _ node.subscribers

/-- Witness for C6: a fresh registration emits one connect notification
carrying count one and the client address; removing `m1` via the
disconnect handler emits one disconnect notification carrying count
zero and the captured address. -/
theorem notification_shape_witness :
    sentNotifications (registerSubscriber_p0 envOK nodeEmpty msgReg).2.1 =
      [⟨"connect",
        some (registerSubscriber_p0 envOK nodeEmpty msgReg).1.subscribers.length,
        some msgReg.ip⟩] ∧
    sentNotifications (closeHandler_p0 envOK nodeM1 "m1" "203.0.113.7").2 =
      [⟨"disconnect",
        some (closeHandler_p0 envOK nodeM1 "m1" "203.0.113.7").1.subscribers.length,
        some "203.0.113.7"⟩] :=
  ⟨(notification_shape envOK nodeEmpty msgTick msgReg "m1" "203.0.113.7").1 (by decide),
   (notification_shape envOK nodeM1 msgTick msgReg "m1" "203.0.113.7").2.1 (by decide)⟩

/-- C6 counterexample: the sse-server.js variant emits a connect
notification holding only the event field — it carries neither the
subscriber count nor the client address, refuting the claimed shape. -/
theorem connect_notification_sse_missing_fields :
    sentNotifications (registerSubscriber_sse envOK nodeEmpty msgReg).2.1 =
      [⟨"connect", none, none⟩] ∧
    (⟨"connect", none, none⟩ : Notification).subscribers ≠
      some (registerSubscriber_sse envOK nodeEmpty msgReg).1.subscribers.length := by
  decide

/-- C7: broadcast name and payload resolution.  The effective event name
is the node-level configured name when truthy, else the work item topic
when truthy, else the literal message; the effective data serializes the
node-level configured data when truthy, else the work item payload; and
the serializer passes strings through unchanged while JSON-encoding any
non-string value. -/
theorem broadcast_resolution :
    (∀ (node : Node) (msg : BroadcastMsg),
        effectiveEventName node msg =
          if truthy node.event then jsToString node.event
          else if truthy msg.topic then jsToString msg.topic
          else "message") ∧
    (∀ (node : Node) (msg : BroadcastMsg),
        effectiveData node msg =
          jsToString (_serializeData
            (if truthy node.data then node.data else msg.payload))) ∧
    (∀ s : String, _serializeData (JSValue.vStr s) = JSValue.vStr s) ∧
    (∀ v : JSValue, isString v = false → _serializeData v = jsJSONStringify v) := by
  refine ⟨?_, ?_, ?_, ?_⟩
  · intro node msg
    cases h1 : truthy node.event <;> cases h2 : truthy msg.topic <;>
      simp [effectiveEventName, jsOr, h1, h2, jsToString]
  · intro node msg
    cases h1 : truthy node.data <;>
      simp [effectiveData, jsOr, h1]
  · intro s
    rfl
  · intro v h
    unfold _serializeData
    rw [h]
    simp

/-- Witness for C7: with no node-level configuration the topic `tick`
wins, and a numeric payload is JSON-encoded. -/
theorem broadcast_resolution_witness :
    effectiveEventName nodeEmpty msgTick =
      (if truthy nodeEmpty.event then jsToString nodeEmpty.event
       else if truthy msgTick.topic then jsToString msgTick.topic
       else "message") ∧
    _serializeData (JSValue.vNum 7) = jsJSONStringify (JSValue.vNum 7) :=
  ⟨broadcast_resolution.1 nodeEmpty msgTick,
   broadcast_resolution.2.2.2 (JSValue.vNum 7) (by decide)⟩

/-- C8: work-item completion under exceptions.  The completion callback
is invoked on every path when provided, and when the dispatched
operation throws (a write failure during registration, the only
uncaught throw site in the model) the exception is absorbed by the
handler: an error is logged and the status is set to the red indicator,
while the work item is still completed. -/
theorem work_item_completion (env : Env) (node : Node) (m : InMsg) :
    Effect.doneCalled ∈ (onInput env node m true).2 ∧
    (∀ rm : RegMsg, m = .reg rm → env.writeFails rm._msgid = true →
        Effect.errorLogged ("write failed " ++ rm._msgid) ∈ (onInput env node m true).2 ∧
        Effect.statusSet "red" (statusText node.subscribers.length) ∈
          (onInput env node m true).2) := by
  constructor
  · cases m with
    | reg rm =>
        cases hw : env.writeFails rm._msgid <;>
          simp [onInput, registerSubscriber_p0, hw]
    | evt bm => simp [onInput]
  · rintro rm rfl hw
    constructor <;> simp [onInput, registerSubscriber_p0, hw]

/-- Witness for C8: a registration whose open-frame write throws still
results in the completion callback being invoked, with the error
logged. -/
theorem work_item_completion_witness :
    Effect.doneCalled ∈ (onInput envFailM1 nodeEmpty (.reg msgReg) true).2 ∧
    Effect.errorLogged ("write failed " ++ "m1") ∈
      (onInput envFailM1 nodeEmpty (.reg msgReg) true).2 :=
  ⟨(work_item_completion envFailM1 nodeEmpty (.reg msgReg)).1,
   ((work_item_completion envFailM1 nodeEmpty (.reg msgReg)).2 msgReg rfl (by decide)).1⟩

/-- C9: duplicate-admission notification behaviour.  When the id is
already present, both variants skip the push (registry unchanged) but
still emit a connect notification and still republish the
connected-count status. -/
theorem duplicate_admission_still_notifies (env : Env) (node : Node) (msg : RegMsg)
    (hdup : hasId node.subscribers msg._msgid = true)
    (hok : env.writeFails msg._msgid = false) :
    (registerSubscriber_p0 env node msg).1 = node ∧
    Effect.sent ⟨"connect", some node.subscribers.length, some msg.ip⟩ ∈
      (registerSubscriber_p0 env node msg).2.1 ∧
    Effect.statusSet "green" (statusText node.subscribers.length) ∈
      (registerSubscriber_p0 env node msg).2.1 ∧
    (registerSubscriber_sse env node msg).1 = node ∧
    Effect.sent ⟨"connect", none, none⟩ ∈ (registerSubscriber_sse env node msg).2.1 ∧
    Effect.statusSet "green" (statusText node.subscribers.length) ∈
      (registerSubscriber_sse env node msg).2.1 := by
  have hpush : pushUnlessPresent node.subscribers msg._msgid = node.subscribers := by
    unfold pushUnlessPresent
    rw [if_pos hdup]
  refine ⟨?_, ?_, ?_, ?_, ?_, ?_⟩ <;>
    simp [registerSubscriber_p0, registerSubscriber_sse, hok, hpush]

/-- Witness for C9: registering the already-present id `m1` leaves the
registry unchanged but still emits the connect notification. -/
theorem duplicate_admission_still_notifies_witness :
    (registerSubscriber_p0 envOK nodeM1 msgReg).1 = nodeM1 ∧
    Effect.sent ⟨"connect", some nodeM1.subscribers.length, some msgReg.ip⟩ ∈
      (registerSubscriber_p0 envOK nodeM1 msgReg).2.1 :=
  ⟨(duplicate_admission_still_notifies envOK nodeM1 msgReg (by decide) (by decide)).1,
   (duplicate_admission_still_notifies envOK nodeM1 msgReg (by decide) (by decide)).2.1⟩

/-- C10: the open frame written at registration uses the default string
when the payload is falsy (undefined, null, the empty string, zero or
false, exactly the values with `truthy` false); a truthy string payload
passes through unchanged and any other truthy payload is
JSON-encoded. -/
theorem open_frame_default_payload (env : Env) (node : Node) (msg : RegMsg)
    (hok : env.writeFails msg._msgid = false) :
    Effect.frameWritten msg._msgid ⟨"open", openFrameData msg.payload, msg._msgid⟩ ∈
      (registerSubscriber_p0 env node msg).2.1 ∧
    (truthy msg.payload = false → openFrameData msg.payload = "Connection opened") ∧
    (∀ s : String, msg.payload = JSValue.vStr s → truthy msg.payload = true →
        openFrameData msg.payload = s) ∧
    (truthy msg.payload = true → isString msg.payload = false →
        openFrameData msg.payload = jsonEncode msg.payload) := by
  refine ⟨?_, ?_, ?_, ?_⟩
  · simp [registerSubscriber_p0, hok]
  · intro hf
    simp [openFrameData, jsOr, hf, _serializeData, isString, jsToString]
  · intro s heq htr
    rw [heq]
    rw [heq] at htr
    simp [openFrameData, jsOr, htr, _serializeData, isString, jsToString]
  · intro htr hns
    cases hp : msg.payload <;>
      simp_all [openFrameData, jsOr, truthy, isString, _serializeData,
        jsJSONStringify, jsToString]

/-- Witness for C10: an absent payload yields the default data line. -/
theorem open_frame_default_payload_witness :
    Effect.frameWritten "m1" ⟨"open", openFrameData msgReg.payload, "m1"⟩ ∈
      (registerSubscriber_p0 envOK nodeEmpty msgReg).2.1 ∧
    openFrameData msgReg.payload = "Connection opened" :=
  ⟨(open_frame_default_payload envOK nodeEmpty msgReg (by decide)).1,
   (open_frame_default_payload envOK nodeEmpty msgReg (by decide)).2.1 (by decide)⟩

end SSE
